import Mathlib

/-!
Lotto bridge: static and dynamic adapters, reconciliation and cache.

A shallow embedding of `src/server/index.js`.  The outside world (HTTP
fetches, the headless browser, the clock) is a record of the answers it
gives during one call; the JavaScript functions become pure functions of
that record.
-/

namespace LottoBridge

/-! ## Strings, errors, records -/

/-- A JavaScript string, as its sequence of characters. -/
abbrev JStr := List Char

/-- A thrown `Error`; the code only reads its `message`. -/
structure Err where
  message : JStr
deriving DecidableEq, Repr

/-- The string that `Date.prototype.toISOString` renders for the instant
`epochMs`.  Such a string is never empty, so it is always truthy. -/
structure IsoStamp where
  epochMs : Int
deriving DecidableEq, Repr

/-- The record `{ dateISO, midday, evening }`; `none` is JavaScript `null`. -/
structure Rec where
  dateISO : IsoStamp
  midday : Option JStr
  evening : Option JStr
deriving DecidableEq, Repr

/-- JavaScript truthiness of a value that is `null`/`undefined` or a string. -/
def truthy : Option JStr → Bool
  | none => false
  | some [] => false
  | some (_ :: _) => true

/-- The operator `x || y` on values that are `null`/`undefined` or strings,
with `null` and `undefined` identified. -/
def jsOr (x y : Option JStr) : Option JStr :=
  if truthy x then x else y

/-! ## The regular expression `/^\d{3}-\d{4}$/` -/

/-- One-character regex atoms used by the pattern. -/
inductive Atom where
  | digit
  | lit (c : Char)
deriving DecidableEq, Repr

/-- `\d` matches exactly `0`..`9`; a literal matches itself. -/
def Atom.accepts : Atom → Char → Bool
  | .digit, c => decide ('0' ≤ c) && decide (c ≤ '9')
  | .lit d, c => c == d

/-- A quantified piece `atom{n}`. -/
structure Piece where
  atom : Atom
  count : Nat
deriving DecidableEq, Repr

/-- Anchored match (`^ ... $`) of a sequence of atoms against the whole input. -/
def matchAtoms : List Atom → JStr → Bool
  | [], [] => true
  | a :: as, c :: cs => a.accepts c && matchAtoms as cs
  | _, _ => false

/-- Anchored match of a sequence of fixed-count pieces. -/
def matchPieces (ps : List Piece) (s : JStr) : Bool :=
  matchAtoms (ps.flatMap fun p => List.replicate p.count p.atom) s

/-- The pieces of `^\d{3}-\d{4}$`. -/
def drawPattern : List Piece :=
  [⟨.digit, 3⟩, ⟨.lit '-', 1⟩, ⟨.digit, 4⟩]

/-- The call `/^\d{3}-\d{4}$/.test(s)`. -/
def reTest (s : JStr) : Bool :=
  matchPieces drawPattern s

/-- The spec's grammar, in its words: three ASCII digits, one hyphen, four
ASCII digits, nothing before or after. -/
def IsDrawString (s : JStr) : Prop :=
  ∃ x y : JStr, s = x ++ '-' :: y ∧ x.length = 3 ∧ y.length = 4 ∧
    (∀ c ∈ x, '0' ≤ c ∧ c ≤ '9') ∧ (∀ c ∈ y, '0' ≤ c ∧ c ≤ '9')

/-! ## Source A: `fromLotteryUSA` -/

/-- Characters removed by `String.prototype.trim` (white space and line
terminators of ECMAScript). -/
def isJsSpace (c : Char) : Bool :=
  let n := c.toNat
  n = 0x09 || n = 0x0A || n = 0x0B || n = 0x0C || n = 0x0D || n = 0x20 ||
  n = 0xA0 || n = 0x1680 || (0x2000 ≤ n && n ≤ 0x200A) || n = 0x2028 ||
  n = 0x2029 || n = 0x202F || n = 0x205F || n = 0x3000 || n = 0xFEFF

/-- `s.trim()`. -/
def trim (s : JStr) : JStr :=
  ((s.dropWhile isJsSpace).reverse.dropWhile isJsSpace).reverse

/-- The chain `.slice(0,n).map((i,el)=>$(el).text().trim()).get().join('')`
applied to the texts of the `li` elements selected after the heading. -/
def extractDigits (n : Nat) (lis : List JStr) : JStr :=
  ((lis.take n).map trim).flatten

/-- The template `${x}-${y}`. -/
def hyphenate (x y : JStr) : JStr :=
  x ++ '-' :: y

/-- Lines 41-43 for one field: build `${d3}-${d4}` and null it unless the
regular expression accepts it. -/
def staticField (d3 d4 : JStr) : Option JStr :=
  let s := hyphenate d3 d4
  if !reTest s then none else some s

/-- What the world answers during one run of `fromLotteryUSA`: for each of
the four `axios.get` calls either a thrown error or the page, given by the
texts of the `li` elements that the heading query selects (in document
order), and the instant `dayjs()...toDate()` evaluates to. -/
structure StaticEnv where
  midPage : Except Err (List JStr)
  w4mPage : Except Err (List JStr)
  evePage : Except Err (List JStr)
  w4ePage : Except Err (List JStr)
  noon : IsoStamp

/-- The function `fromLotteryUSA`: four sequential fetches, none guarded. -/
def fromLotteryUSA (w : StaticEnv) : Except Err Rec := do
  let midLis ← w.midPage
  let mid3 := extractDigits 3 midLis
  let w4mLis ← w.w4mPage
  let mid4 := extractDigits 4 w4mLis
  let eveLis ← w.evePage
  let eve3 := extractDigits 3 eveLis
  let w4eLis ← w.w4ePage
  let eve4 := extractDigits 4 w4eLis
  let dateISO := w.noon
  pure { dateISO := dateISO, midday := staticField mid3 mid4, evening := staticField eve3 eve4 }

/-! ## JSON payloads of the dynamic site -/

/-- A value produced by `JSON.parse`.  A number is carried by the string
that JavaScript's `ToString` renders for it, which is all the code observes
of it besides truthiness (`0` and `-0` both render as `0`). -/
inductive Json where
  | null
  | bool (b : Bool)
  | num (shown : JStr)
  | str (s : JStr)
  | arr (items : List Json)
  | obj (fields : List (JStr × Json))

/-- The `TypeError` raised by the engine. -/
def typeError : Err := ⟨"TypeError".toList⟩

/-- Own-property lookup in a parsed object, whose own properties are listed
with each key once. -/
def lookupField (k : JStr) : List (JStr × Json) → Option Json
  | [] => none
  | (k', v) :: rest => if k' = k then some v else lookupField k rest

/-- Property read `v.k` for a key that no prototype defines (`midday`,
`evening`, `winningNumbers`): `none` is `undefined`; reading a property of
`null` throws. -/
def getProp (v : Json) (k : JStr) : Except Err (Option Json) :=
  match v with
  | .null => .error typeError
  | .obj fields => .ok (lookupField k fields)
  | _ => .ok none

/-- Truthiness of a JSON value or `undefined`. -/
def jsonTruthy : Option Json → Bool
  | none => false
  | some .null => false
  | some (.bool b) => b
  | some (.num shown) => shown != "0".toList
  | some (.str s) => s != []
  | some (.arr _) => true
  | some (.obj _) => true

mutual
/-- The abstract operation `ToString` on a parsed value.  An object is
rendered by `Object.prototype.toString` unless it has an own `toString`
property, which cannot be callable, so that the conversion throws. -/
def toStr : Json → Except Err JStr
  | .null => .ok "null".toList
  | .bool true => .ok "true".toList
  | .bool false => .ok "false".toList
  | .num shown => .ok shown
  | .str s => .ok s
  | .arr items => joinItems ",".toList true items
  | .obj fields =>
    match lookupField "toString".toList fields with
    | some _ => .error typeError
    | none => .ok "[object Object]".toList
/-- The loop of `Array.prototype.join(sep)`: `null` elements render as the
empty string; `first` tells that no separator goes before the head. -/
def joinItems (sep : JStr) (first : Bool) : List Json → Except Err JStr
  | [] => .ok []
  | x :: rest =>
    match (match x with | .null => (.ok [] : Except Err JStr) | y => toStr y) with
    | .error e => .error e
    | .ok sx =>
      match joinItems sep false rest with
      | .error e => .error e
      | .ok sr => .ok ((if first then [] else sep) ++ sx ++ sr)
end

/-- The method call `v.join('')`: only arrays have a `join`. -/
def joinMethod (v : Json) : Except Err JStr :=
  match v with
  | .arr items => joinItems [] true items
  | _ => .error typeError

/-- The right-hand side
`String((data.<period>?.winningNumbers||[]).join('')||'')`. -/
def winningDigits (data : Json) (period : JStr) : Except Err JStr :=
  match getProp data period with
  | .error e => .error e
  | .ok p =>
    let wn : Option Json :=
      match p with
      | none => none
      | some .null => none
      | some (.obj fields) => lookupField "winningNumbers".toList fields
      | some _ => none
    let target : Json := if jsonTruthy wn then wn.getD (.arr []) else .arr []
    match joinMethod target with
    | .error e => .error e
    | .ok joined => .ok (if joined != [] then joined else [])

/-- One guarded block `try { if (apiResp) { ... } } catch {}`:
`resp` is `none` when `waitForResponse` rejected (turned into `null`), and
otherwise holds what `apiResp.json()` does.  The pair is `(mid, eve)`. -/
def sniff (resp : Option (Except Err Json)) : Option JStr × Option JStr :=
  match resp with
  | none => (none, none)
  | some (.error _) => (none, none)
  | some (.ok data) =>
    match winningDigits data "midday".toList with
    | .error _ => (none, none)
    | .ok m =>
      match winningDigits data "evening".toList with
      | .error _ => (some m, none)
      | .ok e => (some m, some e)

/-! ## Source B: `fromNYOfficial` -/

/-- What the world answers during one run of `fromNYOfficial`.  A response
field is `none` when `page.waitForResponse` rejected (a timeout, turned
into `null` by `.catch`), and otherwise holds what `apiResp.json()` does:
a thrown error for a malformed payload, or the parsed value. -/
structure DynEnv where
  launch : Except Err Unit
  newPage : Except Err Unit
  gotoNumbers : Except Err Unit
  respNumbers : Option (Except Err Json)
  gotoWin4 : Except Err Unit
  respWin4 : Option (Except Err Json)
  close : Except Err Unit
  now : IsoStamp

instance instDecidableEqExcept {ε α : Type} [DecidableEq ε] [DecidableEq α] :
    DecidableEq (Except ε α)
  | .ok a, .ok b => if h : a = b then isTrue (by rw [h]) else isFalse (by intro h2; cases h2; exact h rfl)
  | .error a, .error b => if h : a = b then isTrue (by rw [h]) else isFalse (by intro h2; cases h2; exact h rfl)
  | .ok _, .error _ => isFalse (by intro h; cases h)
  | .error _, .ok _ => isFalse (by intro h; cases h)

/-- One run of `fromNYOfficial`: what it returned or threw, whether
`chromium.launch` produced a browser, and whether `browser.close()` was
called on it. -/
structure DynRun where
  outcome : Except Err Rec
  launched : Bool
  closeCalled : Bool
deriving DecidableEq, Repr

/-- A template substitution of a value that is `null` or a string. -/
def render : Option JStr → JStr
  | none => "null".toList
  | some s => s

/-- Lines 85-86: `x && y ? `${x}-${y}` : null`. -/
def composite (x y : Option JStr) : Option JStr :=
  if truthy x && truthy y then some (hyphenate (render x) (render y)) else none

/-- The function `fromNYOfficial`. -/
def fromNYOfficial (w : DynEnv) : DynRun :=
  match w.launch with
  | .error e => ⟨.error e, false, false⟩
  | .ok _ =>
  match w.newPage with
  | .error e => ⟨.error e, true, false⟩
  | .ok _ =>
  match w.gotoNumbers with
  | .error e => ⟨.error e, true, false⟩
  | .ok _ =>
  let numbers := sniff w.respNumbers
  let mid3 := numbers.1
  let eve3 := numbers.2
  match w.gotoWin4 with
  | .error e => ⟨.error e, true, false⟩
  | .ok _ =>
  let win4 := sniff w.respWin4
  let mid4 := win4.1
  let eve4 := win4.2
  match w.close with
  | .error e => ⟨.error e, true, true⟩
  | .ok _ =>
  ⟨.ok { dateISO := w.now, midday := composite mid3 mid4, evening := composite eve3 eve4 },
    true, true⟩

/-! ## Aggregator with fallback and cache: `getNY` -/

/-- The module variable `cache`. -/
structure Cache where
  payload : Option Rec
  ts : Int
deriving DecidableEq, Repr

/-- The initial value `{ payload:null, ts:0 }`. -/
def initCache : Cache := ⟨none, 0⟩

/-- The constant `ttlMs`. -/
def ttlMs : Int := 60 * 1000

/-- What the world answers during one call of `getNY`: `Date.now()`, the
two sources, and the instant of `new Date()` on line 103. -/
structure Env where
  now : Int
  staticEnv : StaticEnv
  dynEnv : DynEnv
  stamp : IsoStamp

/-- A warning written by `log.warn`: the `msg` and the error's message. -/
structure Warning where
  msg : JStr
  e : JStr
deriving DecidableEq, Repr

/-- One call of `getNY`: the returned record, the module variable after the
call, how often each source was invoked, the run of the dynamic source when
there was one, and the warnings logged. -/
structure Run where
  result : Rec
  cache : Cache
  staticCalls : Nat
  dynamicCalls : Nat
  dynRun : Option DynRun
  warnings : List Warning
deriving DecidableEq, Repr

/-- The optional read `r?.midday`. -/
def midOf (r : Option Rec) : Option JStr := r.bind Rec.midday

/-- The optional read `r?.evening`. -/
def eveOf (r : Option Rec) : Option JStr := r.bind Rec.evening

/-- The function `getNY`, started with the module variable `cache`. -/
def getNY (w : Env) (cache : Cache) : Run :=
  let now := w.now
  let miss : Run :=
    let ra := fromLotteryUSA w.staticEnv
    let a : Option Rec := match ra with | .ok r => some r | .error _ => none
    let warnA : List Warning :=
      match ra with | .ok _ => [] | .error e => [⟨"lotteryusa failed".toList, e.message⟩]
    let useB : Bool := !truthy (midOf a) || !truthy (eveOf a)
    let rb : Option DynRun := if useB then some (fromNYOfficial w.dynEnv) else none
    let b : Option Rec :=
      match rb with | some ⟨.ok r, _, _⟩ => some r | _ => none
    let warnB : List Warning :=
      match rb with
      | some ⟨.error e, _, _⟩ => [⟨"nyofficial failed".toList, e.message⟩]
      | _ => []
    let best : Rec :=
      { dateISO := match a with
          | some r => r.dateISO
          | none => match b with
            | some r => r.dateISO
            | none => w.stamp
        midday := jsOr (jsOr (midOf a) (midOf b)) none
        evening := jsOr (jsOr (eveOf a) (eveOf b)) none }
    ⟨best, ⟨some best, now⟩, 1, if useB then 1 else 0, rb, warnA ++ warnB⟩
  match cache.payload with
  | some payload =>
    if now - cache.ts < ttlMs then ⟨payload, cache, 0, 0, none, []⟩ else miss
  | none => miss

/-- The test on line 94 fails: nothing is cached, or the entry is at least
`ttlMs` old. -/
def Miss (w : Env) (c : Cache) : Prop :=
  c.payload = none ∨ ¬ (w.now - c.ts < ttlMs)

instance instDecidableMiss (w : Env) (c : Cache) : Decidable (Miss w c) := by
  unfold Miss
  infer_instance

/-- The value of `a` after line 97: the static record, or `null` when
`fromLotteryUSA` threw. -/
def staticOutcome (w : Env) : Option Rec :=
  (fromLotteryUSA w.staticEnv).toOption

/-- The value of `b` after line 101 in a run: the dynamic record, or `null`
when `fromNYOfficial` was not invoked or threw. -/
def dynamicOutcome (run : Run) : Option Rec :=
  run.dynRun.bind fun d => d.outcome.toOption

/-- The spec's policy for one field, in its words: the static value if
present, else the dynamic value if present, else null. -/
def preferStatic (a b : Option JStr) : Option JStr :=
  match a with
  | some v => some v
  | none =>
    match b with
    | some v => some v
    | none => none

/-- The spec's fallback trigger, in its words: the static result is absent,
or is missing `midday`, or is missing `evening`. -/
def dynamicNeeded (w : Env) : Bool :=
  match staticOutcome w with
  | none => true
  | some r => r.midday.isNone || r.evening.isNone

/-- The spec's reconciliation, in its words: the static source is always
attempted; the dynamic source is attempted when the fallback trigger holds;
each field is the static value if present, else the dynamic value if
present, else null; the date is the static record's, else the dynamic
record's, else the current instant. -/
def reconciled (w : Env) : Rec :=
  let a := staticOutcome w
  let b : Option Rec :=
    if dynamicNeeded w then (fromNYOfficial w.dynEnv).outcome.toOption else none
  { dateISO :=
      match a, b with
      | some r, _ => r.dateISO
      | none, some r => r.dateISO
      | none, none => w.stamp
    midday := preferStatic (midOf a) (midOf b)
    evening := preferStatic (eveOf a) (eveOf b) }

/-- Successive calls of `getNY`, each started with the module variable left
by the previous one. -/
def serve (c : Cache) : List Env → List Run
  | [] => []
  | w :: ws => getNY w c :: serve (getNY w c).cache ws

/-! ## Sample inputs -/

/-- The texts of `li` elements. -/
def lis (ds : List String) : List JStr := ds.map String.toList

/-- A `winningNumbers` array of numbers, each given by its rendering. -/
def numbersJson (ds : List String) : Json := .arr (ds.map fun d => .num d.toList)

/-- A payload with `midday.winningNumbers` and `evening.winningNumbers`. -/
def payloadJson (mid eve : List String) : Json :=
  .obj [("midday".toList, .obj [("winningNumbers".toList, numbersJson mid)]),
        ("evening".toList, .obj [("winningNumbers".toList, numbersJson eve)])]

/-- A payload with `midday.winningNumbers` only. -/
def middayOnlyJson (mid : List String) : Json :=
  .obj [("midday".toList, .obj [("winningNumbers".toList, numbersJson mid)])]

/-- A network failure. -/
def errTimeout : Err := ⟨"timeout of 15000ms exceeded".toList⟩

/-- A static world whose four pages are fetched. -/
def staticPages (m3 m4 e3 e4 : List String) : StaticEnv :=
  ⟨.ok (lis m3), .ok (lis m4), .ok (lis e3), .ok (lis e4), ⟨1000⟩⟩

/-- A dynamic world in which the browser works and both responses parse. -/
def dynPayloads (numbers win4 : Json) : DynEnv :=
  ⟨.ok (), .ok (), .ok (), some (.ok numbers), .ok (), some (.ok win4), .ok (), ⟨2000⟩⟩

/-- A dynamic world in which `chromium.launch` fails. -/
def dynDown : DynEnv :=
  ⟨.error errTimeout, .ok (), .ok (), none, .ok (), none, .ok (), ⟨2000⟩⟩

/-- Static midday complete, static evening empty; the dynamic site has both. -/
def envEveningMissing : Env :=
  ⟨5000, staticPages ["1", "2", "3"] ["4", "5", "6", "7"] [] [],
    dynPayloads (payloadJson ["0", "0", "0"] ["4", "5", "6"])
      (payloadJson ["0", "0", "0", "0"] ["7", "8", "9", "0"]), ⟨3000⟩⟩

/-- Both static fields complete. -/
def envStaticComplete : Env :=
  ⟨5000, staticPages ["1", "2", "3"] ["4", "5", "6", "7"] ["9", "8", "7"] ["6", "5", "4", "3"],
    dynPayloads (payloadJson ["0", "0", "0"] ["4", "5", "6"])
      (payloadJson ["0", "0", "0", "0"] ["7", "8", "9", "0"]), ⟨3000⟩⟩

/-- Both sources fail: the first static fetch and the browser launch throw. -/
def envBothFail : Env :=
  ⟨5000, ⟨.error errTimeout, .ok [], .ok [], .ok [], ⟨1000⟩⟩, dynDown, ⟨3000⟩⟩

/-- The evening 4-digit page fetch fails after the other three succeeded;
the dynamic site is down. -/
def envEveningFetchFails : Env :=
  ⟨5000, ⟨.ok (lis ["1", "2", "3"]), .ok (lis ["4", "5", "6", "7"]), .ok (lis ["9", "8", "7"]),
      .error errTimeout, ⟨1000⟩⟩, dynDown, ⟨3000⟩⟩

/-- The static source is down and the dynamic 3-digit payload carries only
two numbers for midday. -/
def envShortDraw : Env :=
  ⟨5000, ⟨.error errTimeout, .ok [], .ok [], .ok [], ⟨1000⟩⟩,
    dynPayloads (payloadJson ["1", "2"] ["4", "5", "6"])
      (payloadJson ["4", "5", "6", "7"] ["7", "8", "9", "0"]), ⟨3000⟩⟩

/-- The browser launches and the first navigation throws. -/
def dynGotoFails : DynEnv :=
  ⟨.ok (), .ok (), .error errTimeout, none, .ok (), none, .ok (), ⟨2000⟩⟩

/-- A later call, one second after `envBothFail`, with both sources healthy. -/
def envOneSecondLater : Env :=
  ⟨6000, staticPages ["1", "2", "3"] ["4", "5", "6", "7"] ["9", "8", "7"] ["6", "5", "4", "3"],
    dynPayloads (payloadJson ["0", "0", "0"] ["4", "5", "6"])
      (payloadJson ["0", "0", "0", "0"] ["7", "8", "9", "0"]), ⟨6000⟩⟩

/-- A call 60 seconds after `envBothFail`. -/
def envSixtySecondsLater : Env :=
  ⟨65000, staticPages ["1", "2", "3"] ["4", "5", "6", "7"] ["9", "8", "7"] ["6", "5", "4", "3"],
    dynDown, ⟨65000⟩⟩

/-! ## The regular expression against the spec's grammar -/

theorem reTest_unfold (s : JStr) :
    reTest s = matchAtoms [.digit, .digit, .digit, .lit '-', .digit, .digit, .digit, .digit] s := by
  rfl

theorem digit_accepts_iff (c : Char) :
    Atom.digit.accepts c = true ↔ ('0' ≤ c ∧ c ≤ '9') := by
  simp [Atom.accepts]

theorem reTest_sound (s : JStr) (h : reTest s = true) : IsDrawString s := by
  rw [reTest_unfold] at h
  rcases s with _ | ⟨a, _ | ⟨b, _ | ⟨c, _ | ⟨k, _ | ⟨d, _ | ⟨e, _ | ⟨f, _ | ⟨g, _ | ⟨i, t⟩⟩⟩⟩⟩⟩⟩⟩⟩
  all_goals simp only [matchAtoms, Bool.and_eq_true, Bool.false_eq_true, and_false, false_and] at h
  obtain ⟨ha, hb, hc, hk, hd, he, hf, hg, -⟩ := h
  have hk2 : k = '-' := by simpa [Atom.accepts] using hk
  subst hk2
  rw [digit_accepts_iff] at ha hb hc hd he hf hg
  refine ⟨[a, b, c], [d, e, f, g], rfl, rfl, rfl, ?_, ?_⟩
  · intro x hx
    simp only [List.mem_cons, List.mem_singleton, List.not_mem_nil, or_false] at hx
    rcases hx with rfl | rfl | rfl <;> assumption
  · intro x hx
    simp only [List.mem_cons, List.mem_singleton, List.not_mem_nil, or_false] at hx
    rcases hx with rfl | rfl | rfl | rfl <;> assumption

theorem reTest_complete (s : JStr) (h : IsDrawString s) : reTest s = true := by
  obtain ⟨x, y, rfl, hx, hy, dx, dy⟩ := h
  rcases x with _ | ⟨a, _ | ⟨b, _ | ⟨c, _ | ⟨k, t⟩⟩⟩⟩ <;> simp at hx
  rcases y with _ | ⟨d, _ | ⟨e, _ | ⟨f, _ | ⟨g, _ | ⟨k, t⟩⟩⟩⟩⟩ <;> simp at hy
  rw [reTest_unfold]
  simp only [List.cons_append, List.nil_append, matchAtoms, Bool.and_eq_true, digit_accepts_iff,
    and_true]
  have ha := dx a (by simp)
  have hb := dx b (by simp)
  have hc := dx c (by simp)
  have hd := dy d (by simp)
  have he := dy e (by simp)
  have hf := dy f (by simp)
  have hg := dy g (by simp)
  refine ⟨ha, hb, hc, ?_, hd, he, hf, hg⟩
  simp [Atom.accepts]

theorem reTest_iff (s : JStr) : reTest s = true ↔ IsDrawString s :=
  ⟨reTest_sound s, reTest_complete s⟩

/-! ## Facts about the two adapters -/

theorem staticField_cases (d3 d4 : JStr) :
    (staticField d3 d4 = none ∧ reTest (hyphenate d3 d4) = false) ∨
    (staticField d3 d4 = some (hyphenate d3 d4) ∧ reTest (hyphenate d3 d4) = true) := by
  unfold staticField
  cases h : reTest (hyphenate d3 d4) <;> simp [h]

theorem hyphenate_ne_nil (x y : JStr) : hyphenate x y ≠ [] := by
  simp [hyphenate]

theorem truthy_staticField (d3 d4 : JStr) :
    truthy (staticField d3 d4) = (staticField d3 d4).isSome := by
  rcases staticField_cases d3 d4 with ⟨h, -⟩ | ⟨h, -⟩
  · simp [h, truthy]
  · rw [h]
    cases hs : hyphenate d3 d4 with
    | nil => exact absurd hs (hyphenate_ne_nil d3 d4)
    | cons c t => simp [truthy]

theorem fromLotteryUSA_ok (w : StaticEnv) (r : Rec) (h : fromLotteryUSA w = .ok r) :
    ∃ m3 m4 e3 e4, w.midPage = .ok m3 ∧ w.w4mPage = .ok m4 ∧ w.evePage = .ok e3 ∧
      w.w4ePage = .ok e4 ∧
      r = ⟨w.noon, staticField (extractDigits 3 m3) (extractDigits 4 m4),
        staticField (extractDigits 3 e3) (extractDigits 4 e4)⟩ := by
  obtain ⟨p1, p2, p3, p4, noon⟩ := w
  cases p1 <;> cases p2 <;> cases p3 <;> cases p4 <;>
    simp [fromLotteryUSA, bind, Except.bind, pure, Except.pure] at h
  exact ⟨_, _, _, _, rfl, rfl, rfl, rfl, h.symm⟩

theorem composite_some (x y : Option JStr) (s : JStr) (h : composite x y = some s) :
    ∃ a b, x = some a ∧ y = some b ∧ a ≠ [] ∧ b ≠ [] ∧ s = hyphenate a b := by
  unfold composite at h
  rcases x with _ | _ | ⟨c, a⟩ <;> rcases y with _ | _ | ⟨d, b⟩ <;> simp [truthy, render] at h
  exact ⟨c :: a, d :: b, rfl, rfl, by simp, by simp, h.symm⟩

theorem truthy_composite (x y : Option JStr) :
    truthy (composite x y) = (composite x y).isSome := by
  cases h : composite x y with
  | none => simp [truthy]
  | some s =>
    obtain ⟨a, b, -, -, -, -, rfl⟩ := composite_some x y s h
    cases hs : hyphenate a b with
    | nil => exact absurd hs (hyphenate_ne_nil a b)
    | cons c t => simp [truthy]

theorem fromNYOfficial_ok (w : DynEnv) (r : Rec) (h : (fromNYOfficial w).outcome = .ok r) :
    r = ⟨w.now, composite (sniff w.respNumbers).1 (sniff w.respWin4).1,
      composite (sniff w.respNumbers).2 (sniff w.respWin4).2⟩ ∧
    (fromNYOfficial w).closeCalled = true := by
  obtain ⟨l, n, g1, r1, g2, r2, c, now⟩ := w
  cases l <;> cases n <;> cases g1 <;> cases g2 <;> cases c <;>
    simp [fromNYOfficial] at h ⊢
  exact h.symm

/-! ## Facts about `getNY` -/

theorem getNY_hit (w : Env) (c : Cache) (r : Rec) (hp : c.payload = some r)
    (ht : w.now - c.ts < ttlMs) : getNY w c = ⟨r, c, 0, 0, none, []⟩ := by
  simp [getNY, hp, ht]

theorem getNY_miss (w : Env) (c : Cache) (h : Miss w c) : getNY w c = getNY w initCache := by
  unfold Miss at h
  cases hp : c.payload with
  | none => simp [getNY, hp, initCache]
  | some r =>
    have ht : ¬ (w.now - c.ts < ttlMs) := by
      rcases h with h | h
      · rw [hp] at h; cases h
      · exact h
    simp [getNY, hp, ht, initCache]

theorem midOf_static_truthy (w : Env) :
    truthy (midOf (staticOutcome w)) = (midOf (staticOutcome w)).isSome := by
  unfold staticOutcome
  cases h : fromLotteryUSA w.staticEnv with
  | error e => simp [Except.toOption, midOf, truthy]
  | ok r =>
    obtain ⟨m3, m4, e3, e4, -, -, -, -, rfl⟩ := fromLotteryUSA_ok _ _ h
    simpa [Except.toOption, midOf] using truthy_staticField _ _

theorem eveOf_static_truthy (w : Env) :
    truthy (eveOf (staticOutcome w)) = (eveOf (staticOutcome w)).isSome := by
  unfold staticOutcome
  cases h : fromLotteryUSA w.staticEnv with
  | error e => simp [Except.toOption, eveOf, truthy]
  | ok r =>
    obtain ⟨m3, m4, e3, e4, -, -, -, -, rfl⟩ := fromLotteryUSA_ok _ _ h
    simpa [Except.toOption, eveOf] using truthy_staticField _ _

theorem midOf_dynamic_truthy (w : DynEnv) :
    truthy (midOf (fromNYOfficial w).outcome.toOption)
      = (midOf (fromNYOfficial w).outcome.toOption).isSome := by
  cases h : (fromNYOfficial w).outcome with
  | error e => simp [Except.toOption, midOf, truthy]
  | ok r =>
    obtain ⟨rfl, -⟩ := fromNYOfficial_ok _ _ h
    simpa [Except.toOption, midOf] using truthy_composite _ _

theorem eveOf_dynamic_truthy (w : DynEnv) :
    truthy (eveOf (fromNYOfficial w).outcome.toOption)
      = (eveOf (fromNYOfficial w).outcome.toOption).isSome := by
  cases h : (fromNYOfficial w).outcome with
  | error e => simp [Except.toOption, eveOf, truthy]
  | ok r =>
    obtain ⟨rfl, -⟩ := fromNYOfficial_ok _ _ h
    simpa [Except.toOption, eveOf] using truthy_composite _ _

/-- The run of `getNY` on a cache miss, written with the values of `a` and
`b`. -/
theorem getNY_init (w : Env) :
    getNY w initCache =
      (let a := staticOutcome w
       let useB := !truthy (midOf a) || !truthy (eveOf a)
       let rb : Option DynRun := if useB then some (fromNYOfficial w.dynEnv) else none
       let b : Option Rec := rb.bind fun d => d.outcome.toOption
       let best : Rec :=
         ⟨match a with
            | some r => r.dateISO
            | none => match b with
              | some r => r.dateISO
              | none => w.stamp,
          jsOr (jsOr (midOf a) (midOf b)) none, jsOr (jsOr (eveOf a) (eveOf b)) none⟩
       ⟨best, ⟨some best, w.now⟩, 1, if useB then 1 else 0, rb,
         (match fromLotteryUSA w.staticEnv with
           | .ok _ => []
           | .error e => [⟨"lotteryusa failed".toList, e.message⟩]) ++
         (match rb with
           | some ⟨.error e, _, _⟩ => [⟨"nyofficial failed".toList, e.message⟩]
           | _ => [])⟩) := by
  unfold getNY staticOutcome
  simp only [initCache]
  cases h : fromLotteryUSA w.staticEnv with
  | error e =>
    simp only [Except.toOption, midOf, eveOf, Option.bind, truthy]
    rcases hd : fromNYOfficial w.dynEnv with ⟨o, l, c⟩
    cases o <;> simp [Except.toOption]
  | ok r =>
    simp only [Except.toOption]
    by_cases hb : (!truthy (midOf (some r)) || !truthy (eveOf (some r))) = true
    · simp only [hb, if_true]
      rcases hd : fromNYOfficial w.dynEnv with ⟨o, l, c⟩
      cases o <;> simp [Except.toOption]
    · simp only [hb, if_false]
      simp

theorem jsOr_eq_preferStatic (x y : Option JStr) (hx : truthy x = x.isSome)
    (hy : truthy y = y.isSome) : jsOr (jsOr x y) none = preferStatic x y := by
  cases x with
  | some a => simp [jsOr, preferStatic, hx]
  | none =>
    cases y with
    | some b =>
      have hn : truthy none = false := rfl
      simp [jsOr, preferStatic, hn, hy]
    | none =>
      have hn : truthy none = false := rfl
      simp [jsOr, preferStatic, hn]

theorem jsOr_none_left (y : Option JStr) (hy : truthy y = y.isSome) :
    jsOr (jsOr none y) none = y := by
  rw [jsOr_eq_preferStatic none y rfl hy]
  cases y <;> rfl

theorem midOf_b_truthy (w : DynEnv) (u : Bool) :
    truthy (midOf ((if u then some (fromNYOfficial w) else none).bind
        fun d => d.outcome.toOption))
      = (midOf ((if u then some (fromNYOfficial w) else none).bind
        fun d => d.outcome.toOption)).isSome := by
  cases u
  · simp [midOf, truthy]
  · simpa using midOf_dynamic_truthy w

theorem eveOf_b_truthy (w : DynEnv) (u : Bool) :
    truthy (eveOf ((if u then some (fromNYOfficial w) else none).bind
        fun d => d.outcome.toOption))
      = (eveOf ((if u then some (fromNYOfficial w) else none).bind
        fun d => d.outcome.toOption)).isSome := by
  cases u
  · simp [eveOf, truthy]
  · simpa using eveOf_dynamic_truthy w

/-! ## The claims -/

/-- C1: for every candidate `${d3}-${d4}` the static adapter keeps the
candidate as the field value exactly when it is three ASCII digits, a
hyphen and four ASCII digits with nothing around, and sets the field to
null otherwise; `fromLotteryUSA` builds both fields that way from the
extracted strings; and `123-4567` is accepted while `12-4567`, `123-456`,
`1234-567` and the empty string are rejected. -/
theorem static_candidate_kept_iff_grammar :
    (∀ d3 d4 : JStr,
      (staticField d3 d4 = some (hyphenate d3 d4) ↔ IsDrawString (hyphenate d3 d4)) ∧
      (staticField d3 d4 = none ↔ ¬ IsDrawString (hyphenate d3 d4))) ∧
    (∀ s : JStr, reTest s = true ↔ IsDrawString s) ∧
    (∀ (m3 m4 e3 e4 : List JStr) (noon : IsoStamp),
      fromLotteryUSA ⟨.ok m3, .ok m4, .ok e3, .ok e4, noon⟩ =
        .ok ⟨noon, staticField (extractDigits 3 m3) (extractDigits 4 m4),
          staticField (extractDigits 3 e3) (extractDigits 4 e4)⟩) ∧
    staticField "123".toList "4567".toList = some "123-4567".toList ∧
    staticField "12".toList "4567".toList = none ∧
    staticField "123".toList "456".toList = none ∧
    staticField "1234".toList "567".toList = none ∧
    reTest "123-4567".toList = true ∧ reTest "12-4567".toList = false ∧
    reTest "123-456".toList = false ∧ reTest "1234-567".toList = false ∧
    reTest "".toList = false := by
  refine ⟨?_, reTest_iff, ?_, by decide, by decide, by decide, by decide, by decide, by decide,
    by decide, by decide, by decide⟩
  · intro d3 d4
    rcases staticField_cases d3 d4 with ⟨h, ht⟩ | ⟨h, ht⟩
    · have hn : ¬ IsDrawString (hyphenate d3 d4) := by
        rw [← reTest_iff, ht]; simp
      simp [h, hn]
    · have hy : IsDrawString (hyphenate d3 d4) := (reTest_iff _).1 ht
      simp [h, hy]
  · intro m3 m4 e3 e4 noon
    rfl

/-- C3: on a cache miss each of `midday` and `evening` of the returned
record is the static record's value if the static source supplies it, else
the dynamic record's value if the dynamic source was invoked and supplies
it, else null; the dynamic record is that of the one run of
`fromNYOfficial`, when there is one. -/
theorem getNY_prefers_static (w : Env) (c : Cache) (h : Miss w c) :
    (getNY w c).result.midday =
      preferStatic (midOf (staticOutcome w)) (midOf (dynamicOutcome (getNY w c))) ∧
    (getNY w c).result.evening =
      preferStatic (eveOf (staticOutcome w)) (eveOf (dynamicOutcome (getNY w c))) ∧
    ((getNY w c).dynRun = none ∨ (getNY w c).dynRun = some (fromNYOfficial w.dynEnv)) := by
  rw [getNY_miss w c h, getNY_init]
  simp only [dynamicOutcome]
  refine ⟨?_, ?_, ?_⟩
  · exact jsOr_eq_preferStatic _ _ (midOf_static_truthy w) (midOf_b_truthy _ _)
  · exact jsOr_eq_preferStatic _ _ (eveOf_static_truthy w) (eveOf_b_truthy _ _)
  · by_cases hb : (!truthy (midOf (staticOutcome w)) || !truthy (eveOf (staticOutcome w))) = true
    · right; simp only [hb, if_true]
    · left; simp [hb]

/-- C3 at the spec's example: static `123-4567` / null and dynamic
`000-0000` / `456-7890` reconcile to `123-4567` / `456-7890`. -/
theorem getNY_prefers_static_witness :
    Miss envEveningMissing initCache ∧
    staticOutcome envEveningMissing = some ⟨⟨1000⟩, some "123-4567".toList, none⟩ ∧
    dynamicOutcome (getNY envEveningMissing initCache)
      = some ⟨⟨2000⟩, some "000-0000".toList, some "456-7890".toList⟩ ∧
    (getNY envEveningMissing initCache).result
      = ⟨⟨1000⟩, some "123-4567".toList, some "456-7890".toList⟩ ∧
    ((getNY envEveningMissing initCache).result.midday =
      preferStatic (midOf (staticOutcome envEveningMissing))
        (midOf (dynamicOutcome (getNY envEveningMissing initCache))) ∧
    (getNY envEveningMissing initCache).result.evening =
      preferStatic (eveOf (staticOutcome envEveningMissing))
        (eveOf (dynamicOutcome (getNY envEveningMissing initCache))) ∧
    ((getNY envEveningMissing initCache).dynRun = none ∨
      (getNY envEveningMissing initCache).dynRun
        = some (fromNYOfficial envEveningMissing.dynEnv))) :=
  ⟨by decide, by decide, by decide, by decide,
    getNY_prefers_static envEveningMissing initCache (by decide)⟩

/-- C4: on a cache miss the dynamic source is invoked exactly when the
static source threw or returned a record with `midday` null or `evening`
null, and it is invoked at most once; when the static record has both
fields non-null the dynamic source is not run at all and the returned
record is the static record. -/
theorem dynamic_invoked_iff_static_incomplete (w : Env) (c : Cache) (h : Miss w c) :
    ((getNY w c).dynamicCalls = 1 ↔
      ((∃ e, fromLotteryUSA w.staticEnv = .error e) ∨
       (∃ r, fromLotteryUSA w.staticEnv = .ok r ∧ (r.midday = none ∨ r.evening = none)))) ∧
    ((getNY w c).dynamicCalls = 1 ↔ (getNY w c).dynRun = some (fromNYOfficial w.dynEnv)) ∧
    ((getNY w c).dynamicCalls = 0 ↔ (getNY w c).dynRun = none) ∧
    ((getNY w c).dynamicCalls = 0 ∨ (getNY w c).dynamicCalls = 1) ∧
    (∀ r, fromLotteryUSA w.staticEnv = .ok r → r.midday ≠ none → r.evening ≠ none →
      (getNY w c).dynamicCalls = 0 ∧ (getNY w c).dynRun = none ∧ (getNY w c).result = r) := by
  rw [getNY_miss w c h, getNY_init]
  have hm := midOf_static_truthy w
  have he := eveOf_static_truthy w
  simp only [hm, he]
  unfold staticOutcome
  cases hs : fromLotteryUSA w.staticEnv with
  | error e => simp [Except.toOption, midOf, eveOf]
  | ok r =>
    obtain ⟨rd, rm, re⟩ := r
    rcases rm with _ | m <;> rcases re with _ | e
    · simp [Except.toOption, midOf, eveOf, jsOr, truthy]
    · simp [Except.toOption, midOf, eveOf, jsOr, truthy]
    · simp [Except.toOption, midOf, eveOf, jsOr, truthy]
    · have hm2 : truthy (some m) = true := by
        simpa [staticOutcome, hs, Except.toOption, midOf] using hm
      have he2 : truthy (some e) = true := by
        simpa [staticOutcome, hs, Except.toOption, eveOf] using he
      simp [Except.toOption, midOf, eveOf, jsOr, hm2, he2]

/-- C4 at two inputs: an incomplete static record makes the dynamic source
run once; a complete one keeps it from running. -/
theorem dynamic_invoked_iff_static_incomplete_witness :
    (Miss envEveningMissing initCache ∧
      (getNY envEveningMissing initCache).dynamicCalls = 1 ∧
      (getNY envEveningMissing initCache).dynRun
        = some (fromNYOfficial envEveningMissing.dynEnv)) ∧
    (Miss envStaticComplete initCache ∧
      fromLotteryUSA envStaticComplete.staticEnv
        = .ok ⟨⟨1000⟩, some "123-4567".toList, some "987-6543".toList⟩ ∧
      (getNY envStaticComplete initCache).dynamicCalls = 0 ∧
      (getNY envStaticComplete initCache).dynRun = none ∧
      (getNY envStaticComplete initCache).result
        = ⟨⟨1000⟩, some "123-4567".toList, some "987-6543".toList⟩) :=
  ⟨⟨by decide,
      (dynamic_invoked_iff_static_incomplete envEveningMissing initCache (by decide)).1.2
        (Or.inr ⟨⟨⟨1000⟩, some "123-4567".toList, none⟩, by decide, Or.inr rfl⟩),
      (dynamic_invoked_iff_static_incomplete envEveningMissing initCache (by decide)).2.1.1
        (by decide)⟩,
    ⟨by decide, by decide,
      (dynamic_invoked_iff_static_incomplete envStaticComplete initCache (by decide)).2.2.2.2
        _ (by decide) (by decide) (by decide)⟩⟩

/-- C5: when `fromLotteryUSA` throws and `fromNYOfficial` throws, `getNY`
(a total function here: both calls sit in `try`/`catch`) returns
the record with `midday` null, `evening` null and the ISO string of the
current instant as `dateISO`, having logged the two failures. -/
theorem getNY_both_sources_throw (w : Env) (c : Cache) (e1 e2 : Err) (h : Miss w c)
    (ha : fromLotteryUSA w.staticEnv = .error e1)
    (hb : (fromNYOfficial w.dynEnv).outcome = .error e2) :
    (getNY w c).result = ⟨w.stamp, none, none⟩ ∧
    (getNY w c).warnings =
      [⟨"lotteryusa failed".toList, e1.message⟩, ⟨"nyofficial failed".toList, e2.message⟩] ∧
    (getNY w c).staticCalls = 1 ∧ (getNY w c).dynamicCalls = 1 := by
  rw [getNY_miss w c h, getNY_init]
  rcases hd : fromNYOfficial w.dynEnv with ⟨o, l, cl⟩
  rw [hd] at hb
  simp only at hb
  subst hb
  simp [staticOutcome, ha, Except.toOption, midOf, eveOf, truthy, jsOr]

/-- C5 at an input where the first static fetch and the browser launch
both throw. -/
theorem getNY_both_sources_throw_witness :
    Miss envBothFail initCache ∧
    fromLotteryUSA envBothFail.staticEnv = .error errTimeout ∧
    (fromNYOfficial envBothFail.dynEnv).outcome = .error errTimeout ∧
    ((getNY envBothFail initCache).result = ⟨⟨3000⟩, none, none⟩ ∧
    (getNY envBothFail initCache).warnings =
      [⟨"lotteryusa failed".toList, errTimeout.message⟩,
        ⟨"nyofficial failed".toList, errTimeout.message⟩] ∧
    (getNY envBothFail initCache).staticCalls = 1 ∧
    (getNY envBothFail initCache).dynamicCalls = 1) :=
  ⟨by decide, by decide, by decide,
    getNY_both_sources_throw envBothFail initCache errTimeout errTimeout (by decide)
      (by decide) (by decide)⟩

theorem getNY_init_counts (w : Env) :
    (getNY w initCache).staticCalls = 1 ∧ (getNY w initCache).dynamicCalls ≤ 1 ∧
    (getNY w initCache).cache = ⟨some (getNY w initCache).result, w.now⟩ := by
  rw [getNY_init]
  refine ⟨rfl, ?_, rfl⟩
  simp only
  split <;> simp

theorem serve_within_ttl (r : Rec) (t1 : Int) (ws : List Env)
    (hw : ∀ w ∈ ws, w.now - t1 < ttlMs) :
    ∀ run ∈ serve ⟨some r, t1⟩ ws, run = ⟨r, ⟨some r, t1⟩, 0, 0, none, []⟩ := by
  induction ws with
  | nil => intro run hrun; simp [serve] at hrun
  | cons w ws ih =>
    intro run hrun
    have hw1 : w.now - t1 < ttlMs := hw w (by simp)
    have h1 : getNY w ⟨some r, t1⟩ = ⟨r, ⟨some r, t1⟩, 0, 0, none, []⟩ :=
      getNY_hit w ⟨some r, t1⟩ r rfl hw1
    simp only [serve, h1, List.mem_cons] at hrun
    rcases hrun with rfl | hrun
    · rfl
    · exact ih (fun v hv => hw v (by simp [hv])) run hrun

theorem useB_eq_dynamicNeeded (w : Env) :
    (!truthy (midOf (staticOutcome w)) || !truthy (eveOf (staticOutcome w)))
      = dynamicNeeded w := by
  rw [midOf_static_truthy, eveOf_static_truthy]
  unfold dynamicNeeded
  cases staticOutcome w with
  | none => rfl
  | some r =>
    obtain ⟨d, m, e⟩ := r
    cases m <;> cases e <;> rfl

/-- On a cache miss `getNY` performs the spec's reconciliation. -/
theorem getNY_init_reconciled (w : Env) :
    (getNY w initCache).result = reconciled w ∧
    (getNY w initCache).dynRun
      = (if dynamicNeeded w then some (fromNYOfficial w.dynEnv) else none) ∧
    (getNY w initCache).dynamicCalls = (if dynamicNeeded w then 1 else 0) := by
  rw [getNY_init]
  refine ⟨?_, by simp only [useB_eq_dynamicNeeded], by simp only [useB_eq_dynamicNeeded]⟩
  simp only [useB_eq_dynamicNeeded]
  have hm := midOf_static_truthy w
  have he := eveOf_static_truthy w
  unfold reconciled
  cases hd : dynamicNeeded w with
  | false =>
    have hmid := jsOr_eq_preferStatic (midOf (staticOutcome w)) (midOf none) hm rfl
    have heve := jsOr_eq_preferStatic (eveOf (staticOutcome w)) (eveOf none) he rfl
    cases hs : staticOutcome w with
    | none => simp [dynamicNeeded, hs] at hd
    | some r =>
      rw [hs] at hmid heve
      simp only [Bool.false_eq_true, if_false, Option.none_bind]
      rw [hmid, heve]
  | true =>
    have hmid := jsOr_eq_preferStatic (midOf (staticOutcome w))
      (midOf (fromNYOfficial w.dynEnv).outcome.toOption) hm (midOf_dynamic_truthy w.dynEnv)
    have heve := jsOr_eq_preferStatic (eveOf (staticOutcome w))
      (eveOf (fromNYOfficial w.dynEnv).outcome.toOption) he (eveOf_dynamic_truthy w.dynEnv)
    simp only [if_true, Option.some_bind]
    rw [hmid, heve]
    cases hs : staticOutcome w with
    | some r => rfl
    | none =>
      cases hb : (fromNYOfficial w.dynEnv).outcome.toOption <;> rfl

/-- C6: the time-to-live is 60000 ms; a reconciling call stores its record
with its time; with record `r` stored at `t1`, a call at `t2` with
`t2 - t1 < 60000` returns `r`, invokes neither source and leaves the entry
as it is, and so does every call of a sequence of such calls; a call with
`t2 - t1 >= 60000`, and a call against the initial empty cache, performs one
reconciliation: one static attempt, a dynamic attempt (one run of
`fromNYOfficial`) exactly when the static result is absent or misses a
field and none otherwise, the reconciled record of the two sources
returned, and the entry overwritten with that record and `t2`. -/
theorem cache_ttl_roundtrip :
    ttlMs = 60000 ∧
    (∀ (w1 : Env) (c0 : Cache), Miss w1 c0 →
      (getNY w1 c0).result = reconciled w1 ∧
      (getNY w1 c0).cache = ⟨some (getNY w1 c0).result, w1.now⟩) ∧
    (∀ (r : Rec) (t1 : Int) (w2 : Env), w2.now - t1 < 60000 →
      getNY w2 ⟨some r, t1⟩ = ⟨r, ⟨some r, t1⟩, 0, 0, none, []⟩) ∧
    (∀ (r : Rec) (t1 : Int) (ws : List Env), (∀ w ∈ ws, w.now - t1 < 60000) →
      ∀ run ∈ serve ⟨some r, t1⟩ ws,
        run.result = r ∧ run.staticCalls = 0 ∧ run.dynamicCalls = 0 ∧ run.dynRun = none ∧
        run.cache = ⟨some r, t1⟩) ∧
    (∀ (r : Rec) (t1 : Int) (w2 : Env), 60000 ≤ w2.now - t1 →
      (getNY w2 ⟨some r, t1⟩).staticCalls = 1 ∧ (getNY w2 ⟨some r, t1⟩).dynamicCalls ≤ 1 ∧
      (getNY w2 ⟨some r, t1⟩).dynamicCalls = (if dynamicNeeded w2 then 1 else 0) ∧
      (getNY w2 ⟨some r, t1⟩).dynRun
        = (if dynamicNeeded w2 then some (fromNYOfficial w2.dynEnv) else none) ∧
      (getNY w2 ⟨some r, t1⟩).result = reconciled w2 ∧
      (getNY w2 ⟨some r, t1⟩).cache = ⟨some (getNY w2 ⟨some r, t1⟩).result, w2.now⟩ ∧
      (getNY w2 ⟨some r, t1⟩).cache = ⟨some (reconciled w2), w2.now⟩) ∧
    (∀ w : Env,
      (getNY w initCache).staticCalls = 1 ∧ (getNY w initCache).dynamicCalls ≤ 1 ∧
      (getNY w initCache).dynamicCalls = (if dynamicNeeded w then 1 else 0) ∧
      (getNY w initCache).dynRun
        = (if dynamicNeeded w then some (fromNYOfficial w.dynEnv) else none) ∧
      (getNY w initCache).result = reconciled w ∧
      (getNY w initCache).cache = ⟨some (getNY w initCache).result, w.now⟩ ∧
      (getNY w initCache).cache = ⟨some (reconciled w), w.now⟩) := by
  have httl : ttlMs = 60000 := by decide
  have hinit : ∀ w : Env,
      (getNY w initCache).staticCalls = 1 ∧ (getNY w initCache).dynamicCalls ≤ 1 ∧
      (getNY w initCache).dynamicCalls = (if dynamicNeeded w then 1 else 0) ∧
      (getNY w initCache).dynRun
        = (if dynamicNeeded w then some (fromNYOfficial w.dynEnv) else none) ∧
      (getNY w initCache).result = reconciled w ∧
      (getNY w initCache).cache = ⟨some (getNY w initCache).result, w.now⟩ ∧
      (getNY w initCache).cache = ⟨some (reconciled w), w.now⟩ := by
    intro w
    obtain ⟨h1, h2, h3⟩ := getNY_init_counts w
    obtain ⟨h4, h5, h6⟩ := getNY_init_reconciled w
    refine ⟨h1, h2, h6, h5, h4, h3, ?_⟩
    rw [h3, h4]
  refine ⟨httl, ?_, ?_, ?_, ?_, hinit⟩
  · intro w1 c0 h
    rw [getNY_miss w1 c0 h]
    exact ⟨(getNY_init_reconciled w1).1, (getNY_init_counts w1).2.2⟩
  · intro r t1 w2 h
    exact getNY_hit w2 ⟨some r, t1⟩ r rfl (by rw [httl]; exact h)
  · intro r t1 ws hw run hrun
    have := serve_within_ttl r t1 ws (by rw [httl]; exact hw) run hrun
    subst this
    exact ⟨rfl, rfl, rfl, rfl, rfl⟩
  · intro r t1 w2 h
    have hm : Miss w2 ⟨some r, t1⟩ := Or.inr (by rw [httl]; simp only; omega)
    rw [getNY_miss w2 _ hm]
    exact hinit w2

/-- C6 at concrete calls: a reconciliation at 5000 ms is served again at
6000 ms without any source call; at 65000 ms the stored all-null record is
replaced by the record reconciled from the sources, here the static one,
with no dynamic run. -/
theorem cache_ttl_roundtrip_witness :
    ((getNY envStaticComplete initCache).result = reconciled envStaticComplete ∧
      (getNY envStaticComplete initCache).cache
        = ⟨some (getNY envStaticComplete initCache).result, 5000⟩) ∧
    getNY envOneSecondLater ⟨some (getNY envStaticComplete initCache).result, 5000⟩
      = ⟨(getNY envStaticComplete initCache).result,
          ⟨some (getNY envStaticComplete initCache).result, 5000⟩, 0, 0, none, []⟩ ∧
    ((getNY envSixtySecondsLater ⟨some ⟨⟨3000⟩, none, none⟩, 5000⟩).staticCalls = 1 ∧
      (getNY envSixtySecondsLater ⟨some ⟨⟨3000⟩, none, none⟩, 5000⟩).dynamicCalls ≤ 1 ∧
      (getNY envSixtySecondsLater ⟨some ⟨⟨3000⟩, none, none⟩, 5000⟩).dynamicCalls
        = (if dynamicNeeded envSixtySecondsLater then 1 else 0) ∧
      (getNY envSixtySecondsLater ⟨some ⟨⟨3000⟩, none, none⟩, 5000⟩).dynRun
        = (if dynamicNeeded envSixtySecondsLater
            then some (fromNYOfficial envSixtySecondsLater.dynEnv) else none) ∧
      (getNY envSixtySecondsLater ⟨some ⟨⟨3000⟩, none, none⟩, 5000⟩).result
        = reconciled envSixtySecondsLater ∧
      (getNY envSixtySecondsLater ⟨some ⟨⟨3000⟩, none, none⟩, 5000⟩).cache
        = ⟨some (getNY envSixtySecondsLater ⟨some ⟨⟨3000⟩, none, none⟩, 5000⟩).result,
            65000⟩ ∧
      (getNY envSixtySecondsLater ⟨some ⟨⟨3000⟩, none, none⟩, 5000⟩).cache
        = ⟨some (reconciled envSixtySecondsLater), 65000⟩) ∧
    reconciled envSixtySecondsLater
      = ⟨⟨1000⟩, some "123-4567".toList, some "987-6543".toList⟩ ∧
    dynamicNeeded envSixtySecondsLater = false :=
  ⟨cache_ttl_roundtrip.2.1 envStaticComplete initCache (by decide),
    cache_ttl_roundtrip.2.2.1 _ 5000 envOneSecondLater (by decide),
    cache_ttl_roundtrip.2.2.2.2.1 ⟨⟨3000⟩, none, none⟩ 5000 envSixtySecondsLater (by decide),
    by decide, by decide⟩

/-- C7: in `fromNYOfficial` the composite of two halves is
`${x}-${y}` when both halves are present and non-empty and null otherwise,
so a composite that is a string always has two non-empty halves; `midday`
is the composite of `mid3` and `mid4` and `evening` that of `eve3` and
`eve4`; a half is null when there is no JSON response or parsing throws, and
empty when the field is missing or `winningNumbers` is empty; with `123`,
`4567`, an evening 3-digit half and no evening 4-digit half, `midday` is
`123-4567` and `evening` is null. -/
theorem dynamic_composite_needs_both_halves :
    (∀ x y : Option JStr,
      composite x y =
        match x, y with
        | some (c :: a), some (d :: b) => some (hyphenate (c :: a) (d :: b))
        | _, _ => none) ∧
    (∀ (x y : Option JStr) (s : JStr), composite x y = some s →
      ∃ a b, x = some a ∧ y = some b ∧ a ≠ [] ∧ b ≠ [] ∧ s = a ++ '-' :: b) ∧
    (∀ (r1 r2 : Option (Except Err Json)) (now : IsoStamp),
      fromNYOfficial ⟨.ok (), .ok (), .ok (), r1, .ok (), r2, .ok (), now⟩ =
        ⟨.ok ⟨now, composite (sniff r1).1 (sniff r2).1, composite (sniff r1).2 (sniff r2).2⟩,
          true, true⟩) ∧
    (∀ (w : DynEnv) (r : Rec), (fromNYOfficial w).outcome = .ok r →
      r.midday = composite (sniff w.respNumbers).1 (sniff w.respWin4).1 ∧
      r.evening = composite (sniff w.respNumbers).2 (sniff w.respWin4).2) ∧
    sniff none = (none, none) ∧
    (∀ e : Err, sniff (some (.error e)) = (none, none)) ∧
    sniff (some (.ok (.obj []))) = (some [], some []) ∧
    sniff (some (.ok (payloadJson [] []))) = (some [], some []) ∧
    sniff (some (.ok (payloadJson ["1", "2", "3"] ["4", "5", "6"])))
      = (some "123".toList, some "456".toList) ∧
    sniff (some (.ok (middayOnlyJson ["4", "5", "6", "7"]))) = (some "4567".toList, some []) ∧
    (fromNYOfficial (dynPayloads (payloadJson ["1", "2", "3"] ["4", "5", "6"])
        (middayOnlyJson ["4", "5", "6", "7"]))).outcome
      = .ok ⟨⟨2000⟩, some "123-4567".toList, none⟩ := by
  refine ⟨?_, ?_, ?_, ?_, rfl, fun _ => rfl, by decide, by decide, by decide, by decide,
    by decide⟩
  · intro x y
    rcases x with _ | _ | ⟨c, a⟩ <;> rcases y with _ | _ | ⟨d, b⟩ <;>
      simp [composite, truthy, render]
  · intro x y s h
    exact composite_some x y s h
  · intro r1 r2 now
    rfl
  · intro w r h
    obtain ⟨rfl, -⟩ := fromNYOfficial_ok w r h
    exact ⟨rfl, rfl⟩

/-- C7 at the spec's example. -/
theorem dynamic_composite_needs_both_halves_witness :
    (∃ a b, some "123".toList = some a ∧ some "4567".toList = some b ∧ a ≠ [] ∧ b ≠ [] ∧
      "123-4567".toList = a ++ '-' :: b) ∧
    ((⟨⟨2000⟩, some "123-4567".toList, none⟩ : Rec).midday =
        composite (sniff (some (.ok (payloadJson ["1", "2", "3"] ["4", "5", "6"])))).1
          (sniff (some (.ok (middayOnlyJson ["4", "5", "6", "7"])))).1 ∧
      (⟨⟨2000⟩, some "123-4567".toList, none⟩ : Rec).evening =
        composite (sniff (some (.ok (payloadJson ["1", "2", "3"] ["4", "5", "6"])))).2
          (sniff (some (.ok (middayOnlyJson ["4", "5", "6", "7"])))).2) :=
  ⟨dynamic_composite_needs_both_halves.2.1 (some "123".toList) (some "4567".toList)
      "123-4567".toList (by decide),
    dynamic_composite_needs_both_halves.2.2.2.1
      (dynPayloads (payloadJson ["1", "2", "3"] ["4", "5", "6"])
        (middayOnlyJson ["4", "5", "6", "7"]))
      ⟨⟨2000⟩, some "123-4567".toList, none⟩ (by decide)⟩

/-- C8, as the claim states it, fails: with the midday pages yielding `123`
and `4567` (a conforming composite) and only the evening 4-digit fetch
failing, `fromLotteryUSA` throws, the static source supplies nothing, and
the reconciled `midday` is null instead of `123-4567`. -/
theorem static_fetch_failure_not_isolated :
    envEveningFetchFails.staticEnv.midPage = .ok (lis ["1", "2", "3"]) ∧
    envEveningFetchFails.staticEnv.w4mPage = .ok (lis ["4", "5", "6", "7"]) ∧
    envEveningFetchFails.staticEnv.w4ePage = .error errTimeout ∧
    staticField (extractDigits 3 (lis ["1", "2", "3"])) (extractDigits 4 (lis ["4", "5", "6", "7"]))
      = some "123-4567".toList ∧
    fromLotteryUSA envEveningFetchFails.staticEnv = .error errTimeout ∧
    staticOutcome envEveningFetchFails = none ∧
    (getNY envEveningFetchFails initCache).result.midday = none ∧
    (getNY envEveningFetchFails initCache).result.midday ≠ some "123-4567".toList := by
  decide

/-- C8 amended: if the fetch of any of the four static pages fails,
`fromLotteryUSA` throws as a whole and the static source contributes no
field; on a cache miss `getNY` logs the failure, invokes the dynamic
source, and each field of the result is the dynamic record's value or
null. -/
theorem static_fetch_failure_fails_adapter (w : Env) (c : Cache) (h : Miss w c)
    (hf : (∃ e, w.staticEnv.midPage = .error e) ∨ (∃ e, w.staticEnv.w4mPage = .error e) ∨
      (∃ e, w.staticEnv.evePage = .error e) ∨ (∃ e, w.staticEnv.w4ePage = .error e)) :
    (∃ e, fromLotteryUSA w.staticEnv = .error e ∧
      (getNY w c).warnings.head? = some ⟨"lotteryusa failed".toList, e.message⟩) ∧
    staticOutcome w = none ∧
    (getNY w c).dynRun = some (fromNYOfficial w.dynEnv) ∧
    (getNY w c).result.midday = midOf (fromNYOfficial w.dynEnv).outcome.toOption ∧
    (getNY w c).result.evening = eveOf (fromNYOfficial w.dynEnv).outcome.toOption := by
  have hthrow : ∃ e, fromLotteryUSA w.staticEnv = .error e := by
    cases hs : fromLotteryUSA w.staticEnv with
    | error e2 => exact ⟨e2, rfl⟩
    | ok r =>
      obtain ⟨m3, m4, e3, e4, h1, h2, h3, h4, -⟩ := fromLotteryUSA_ok _ _ hs
      rcases hf with ⟨e2, h5⟩ | ⟨e2, h5⟩ | ⟨e2, h5⟩ | ⟨e2, h5⟩
      · rw [h1] at h5; cases h5
      · rw [h2] at h5; cases h5
      · rw [h3] at h5; cases h5
      · rw [h4] at h5; cases h5
  obtain ⟨e, he⟩ := hthrow
  have hmid := midOf_dynamic_truthy w.dynEnv
  have heve := eveOf_dynamic_truthy w.dynEnv
  have hso : staticOutcome w = none := by simp [staticOutcome, he, Except.toOption]
  rw [getNY_miss w c h, getNY_init, hso]
  refine ⟨⟨e, he, ?_⟩, rfl, ?_, ?_, ?_⟩
  · simp [he]
  · simp [midOf, eveOf, truthy]
  · have hu : (!truthy (midOf none) || !truthy (eveOf none)) = true := rfl
    simp only [hu, if_true, Option.some_bind]
    exact jsOr_none_left _ hmid
  · have hu : (!truthy (midOf none) || !truthy (eveOf none)) = true := rfl
    simp only [hu, if_true, Option.some_bind]
    exact jsOr_none_left _ heve

/-- C8 amended, at the input where only the evening 4-digit fetch fails. -/
theorem static_fetch_failure_fails_adapter_witness :
    Miss envEveningFetchFails initCache ∧
    (∃ e, envEveningFetchFails.staticEnv.w4ePage = .error e) ∧
    ((∃ e, fromLotteryUSA envEveningFetchFails.staticEnv = .error e ∧
      (getNY envEveningFetchFails initCache).warnings.head?
        = some ⟨"lotteryusa failed".toList, e.message⟩) ∧
    staticOutcome envEveningFetchFails = none ∧
    (getNY envEveningFetchFails initCache).dynRun
      = some (fromNYOfficial envEveningFetchFails.dynEnv) ∧
    (getNY envEveningFetchFails initCache).result.midday
      = midOf (fromNYOfficial envEveningFetchFails.dynEnv).outcome.toOption ∧
    (getNY envEveningFetchFails initCache).result.evening
      = eveOf (fromNYOfficial envEveningFetchFails.dynEnv).outcome.toOption) :=
  ⟨by decide, ⟨errTimeout, rfl⟩,
    static_fetch_failure_fails_adapter envEveningFetchFails initCache (by decide)
      (Or.inr (Or.inr (Or.inr ⟨errTimeout, rfl⟩)))⟩

/-- C2 fails on the code: with the static source down and a dynamic
3-digit payload of two numbers, `getNY` returns `midday = 12-4567`, which
the grammar rejects; `fromNYOfficial` never applies the regular expression
that `fromLotteryUSA` applies. -/
theorem dynamic_value_not_validated :
    fromLotteryUSA envShortDraw.staticEnv = .error errTimeout ∧
    (fromNYOfficial envShortDraw.dynEnv).outcome
      = .ok ⟨⟨2000⟩, some "12-4567".toList, some "456-7890".toList⟩ ∧
    (getNY envShortDraw initCache).result
      = ⟨⟨2000⟩, some "12-4567".toList, some "456-7890".toList⟩ ∧
    reTest "12-4567".toList = false ∧
    ¬ IsDrawString "12-4567".toList := by
  refine ⟨by decide, by decide, by decide, by decide, ?_⟩
  rw [← reTest_iff]
  decide

/-- C9 fails on the code: when the browser was launched and the first
`page.goto` throws, `fromNYOfficial` throws without `browser.close()`
having been called; the same holds for `newPage` and for the second
`page.goto`.  On the paths where nothing escapes (responses present, timed
out or malformed) `close` is called. -/
theorem browser_left_open_on_navigation_failure :
    fromNYOfficial dynGotoFails = ⟨.error errTimeout, true, false⟩ ∧
    (∀ (e : Err) (r1 r2 : Option (Except Err Json)) (g1 g2 cl : Except Err Unit) (now : IsoStamp),
      fromNYOfficial ⟨.ok (), .error e, g1, r1, g2, r2, cl, now⟩ = ⟨.error e, true, false⟩) ∧
    (∀ (e : Err) (r1 r2 : Option (Except Err Json)) (g2 cl : Except Err Unit) (now : IsoStamp),
      fromNYOfficial ⟨.ok (), .ok (), .error e, r1, g2, r2, cl, now⟩ = ⟨.error e, true, false⟩) ∧
    (∀ (e : Err) (r1 r2 : Option (Except Err Json)) (cl : Except Err Unit) (now : IsoStamp),
      fromNYOfficial ⟨.ok (), .ok (), .ok (), r1, .error e, r2, cl, now⟩
        = ⟨.error e, true, false⟩) ∧
    (∀ (r1 r2 : Option (Except Err Json)) (cl : Except Err Unit) (now : IsoStamp),
      (fromNYOfficial ⟨.ok (), .ok (), .ok (), r1, .ok (), r2, cl, now⟩).closeCalled = true) := by
  refine ⟨by decide, fun _ _ _ _ _ _ _ => rfl, fun _ _ _ _ _ _ => rfl,
    fun _ _ _ _ _ => rfl, ?_⟩
  intro r1 r2 cl now
  cases cl <;> rfl

/-- C10, as the claim states it, fails: a call in which both sources yield
nothing overwrites the empty cache with the all-null record, and a call one
second later is served that record without any source being invoked. -/
theorem all_null_record_is_cached :
    (getNY envBothFail initCache).result = ⟨⟨3000⟩, none, none⟩ ∧
    (getNY envBothFail initCache).cache = ⟨some ⟨⟨3000⟩, none, none⟩, 5000⟩ ∧
    (getNY envBothFail initCache).cache ≠ initCache ∧
    getNY envOneSecondLater (getNY envBothFail initCache).cache
      = ⟨⟨⟨3000⟩, none, none⟩, ⟨some ⟨⟨3000⟩, none, none⟩, 5000⟩, 0, 0, none, []⟩ := by
  decide

/-- C10 amended: every call of `getNY` that misses the cache overwrites the
single entry with its record and its time, whether or not any of `midday`
and `evening` is non-null; a call that hits the cache leaves the entry
unchanged, returns its record and invokes neither source. -/
theorem cache_written_on_every_miss (w : Env) (c : Cache) :
    (Miss w c → (getNY w c).cache = ⟨some (getNY w c).result, w.now⟩) ∧
    (¬ Miss w c → (getNY w c).cache = c ∧ c.payload = some (getNY w c).result ∧
      (getNY w c).staticCalls = 0 ∧ (getNY w c).dynamicCalls = 0 ∧
      (getNY w c).dynRun = none) := by
  constructor
  · intro h
    rw [getNY_miss w c h]
    exact (getNY_init_counts w).2.2
  · intro h
    unfold Miss at h
    push_neg at h
    obtain ⟨hp, ht⟩ := h
    cases hr : c.payload with
    | none => exact absurd hr hp
    | some r =>
      rw [getNY_hit w c r hr ht]
      exact ⟨rfl, rfl, rfl, rfl, rfl⟩

/-- C10 amended, at a miss that yields the all-null record and at the hit
that follows it. -/
theorem cache_written_on_every_miss_witness :
    (Miss envBothFail initCache ∧
      (getNY envBothFail initCache).cache = ⟨some (getNY envBothFail initCache).result, 5000⟩) ∧
    (¬ Miss envOneSecondLater ⟨some ⟨⟨3000⟩, none, none⟩, 5000⟩ ∧
      (getNY envOneSecondLater ⟨some ⟨⟨3000⟩, none, none⟩, 5000⟩).cache
        = ⟨some ⟨⟨3000⟩, none, none⟩, 5000⟩ ∧
      (⟨some ⟨⟨3000⟩, none, none⟩, 5000⟩ : Cache).payload
        = some (getNY envOneSecondLater ⟨some ⟨⟨3000⟩, none, none⟩, 5000⟩).result ∧
      (getNY envOneSecondLater ⟨some ⟨⟨3000⟩, none, none⟩, 5000⟩).staticCalls = 0 ∧
      (getNY envOneSecondLater ⟨some ⟨⟨3000⟩, none, none⟩, 5000⟩).dynamicCalls = 0 ∧
      (getNY envOneSecondLater ⟨some ⟨⟨3000⟩, none, none⟩, 5000⟩).dynRun = none) :=
  ⟨⟨by decide, (cache_written_on_every_miss envBothFail initCache).1 (by decide)⟩,
    ⟨by decide,
      (cache_written_on_every_miss envOneSecondLater ⟨some ⟨⟨3000⟩, none, none⟩, 5000⟩).2
        (by decide)⟩⟩

end LottoBridge
